import Mathlib

/-!
Shallow embedding of the transfer-learning toolkit sources:
`tlk/datasets/tf_dataset.py`, `downloader/types.py`,
`notebooks/video_classification/pytorch_video_classification/model_utils.py`,
and `tlt/distributed/pytorch/run_train_pyt.py`.

Python floats are modelled as rationals, TF datasets as lists of batches,
and exceptions as `Except` values.
-/

/-- A Python numeric value, tagged with its runtime type so that
`isinstance(x, float)` checks can be embedded. -/
inductive PyNum where
  | float (q : ℚ)
  | int (n : ℤ)
deriving DecidableEq

/-- `isinstance(x, float)` on a `PyNum`. -/
def PyNum.isFloat : PyNum → Bool
  | .float _ => true
  | .int _ => false

/-- Numeric value of a `PyNum`. -/
def PyNum.toRat : PyNum → ℚ
  | .float q => q
  | .int n => (n : ℚ)

/-- Python truthiness of a number: nonzero. -/
def PyNum.toBool (p : PyNum) : Bool := p.toRat != 0

/-- Python exceptions that the embedded code can raise. -/
inductive PyError where
  | valueError (msg : String)
  | typeError (msg : String)
  | keyError (msg : String)
  | stopIteration
deriving DecidableEq

/-- Python `int(x)` on a float: truncation toward zero. -/
def pyInt (q : ℚ) : ℤ := if 0 ≤ q then ⌊q⌋ else ⌈q⌉

/-- `tf.data.Dataset.take(count)`: a negative count (TF uses -1) keeps the
whole dataset, otherwise the first `count` elements. -/
def tfTake (count : ℤ) (l : List α) : List α :=
  if count < 0 then l else l.take count.toNat

/-- `tf.data.Dataset.skip(count)`: a negative count (TF uses -1) skips the
whole dataset, otherwise drops the first `count` elements. -/
def tfSkip (count : ℤ) (l : List α) : List α :=
  if count < 0 then [] else l.drop count.toNat

/-- State of a `TFDataset` object (`tlk/datasets/tf_dataset.py`): the
underlying `_dataset` plus the three subset fields set by `shuffle_split`
and the `_validation_type` field inherited from `BaseDataset`. -/
structure TFDataset (α : Type) where
  dataset : Option (List α)
  train_subset : Option (List α)
  validation_subset : Option (List α)
  test_subset : Option (List α)
  validation_type : Option String
deriving DecidableEq

/-- `next(iter(d))` on an embedded dataset: the first batch, or
`StopIteration` when the dataset is empty (`TypeError` on `None`,
unreachable under the guards of `get_batch`). -/
def nextIter : Option (List α) → Except PyError α
  | some (b :: _) => .ok b
  | some [] => .error .stopIteration
  | none => .error (.typeError "NoneType object is not iterable")

/-- `TFDataset.get_batch(subset)`: returns the first batch of the chosen
dataset or subset when it is defined, else raises `ValueError`. -/
def TFDataset.get_batch (self : TFDataset α) (subset : String) : Except PyError α :=
  if subset = "all" ∧ self.dataset.isSome then
    nextIter self.dataset
  else if subset = "train" ∧ self.train_subset.isSome then
    nextIter self.train_subset
  else if subset = "validation" ∧ self.validation_subset.isSome then
    nextIter self.validation_subset
  else if subset = "test" ∧ self.test_subset.isSome then
    nextIter self.test_subset
  else
    .error (.valueError "Unable to return a batch, because the dataset or subset hasn\x27t been defined.")

/-- `TFDataset.shuffle_split(train_pct, val_pct, test_pct, seed)`.
`shuffleFn` stands for `tf.data.Dataset.shuffle`, a pure function of the
buffer size, the seed, and the dataset; the source calls it as a bare
expression statement and drops its result, which the `let _shuffled`
binding mirrors. On an exception the returned state is the object's state
at the raise. -/
def TFDataset.shuffle_split (shuffleFn : ℕ → Option ℤ → List α → List α)
    (self : TFDataset α) (train_pct val_pct test_pct : PyNum) (seed : Option ℤ) :
    Except (PyError × TFDataset α) (TFDataset α) :=
  if !(train_pct.isFloat && val_pct.isFloat && test_pct.isFloat) then
    .error (.valueError "Percentage arguments must be floats.", self)
  else if train_pct.toRat + val_pct.toRat + test_pct.toRat > 1 then
    .error (.valueError "Sum of percentage arguments must be less than or equal to 1.", self)
  else
    match self.dataset with
    | none => .error (.typeError "object of type \x27NoneType\x27 has no len()", self)
    | some d =>
      let length := d.length
      let _shuffled := shuffleFn length seed d
      let train_size := pyInt (train_pct.toRat * length)
      let val_size := pyInt (val_pct.toRat * length)
      .ok { self with
        train_subset := some (tfTake train_size d),
        validation_subset := some (tfTake val_size (tfSkip train_size d)),
        test_subset := if test_pct.toBool then some (tfSkip (train_size + val_size) d) else none,
        validation_type := some "shuffle_split" }

/-! ## `downloader/types.py` -/

/-- Python `str.lower()` (the aliases are all ASCII). -/
def pyLower (s : String) : String := ⟨s.data.map Char.toLower⟩

/-- Python `str(list_of_strings)`: `[\x27a\x27, \x27b\x27]`. -/
def pyStrList (l : List String) : String :=
  "[" ++ String.intercalate ", " (l.map (fun s => "\x27" ++ s ++ "\x27")) ++ "]"

/-- The `DatasetType` enum. -/
inductive DatasetType where
  | TENSORFLOW_DATASETS
  | TORCHVISION
  | HUGGING_FACE
  | GENERIC
deriving DecidableEq

/-- `e.name` for a `DatasetType` member. -/
def DatasetType.name : DatasetType → String
  | .TENSORFLOW_DATASETS => "TENSORFLOW_DATASETS"
  | .TORCHVISION => "TORCHVISION"
  | .HUGGING_FACE => "HUGGING_FACE"
  | .GENERIC => "GENERIC"

/-- `[e for e in DatasetType]` in declaration order. -/
def DatasetType.members : List DatasetType :=
  [.TENSORFLOW_DATASETS, .TORCHVISION, .HUGGING_FACE, .GENERIC]

/-- `DatasetType.from_str(dataset_str)`: `None` maps to `GENERIC`, otherwise
the input is lowercased, matched against the alias lists, and an
unrecognized string raises `ValueError` listing the member names. -/
def DatasetType.from_str : Option String → Except PyError DatasetType
  | none => .ok .GENERIC
  | some dataset_str₀ =>
    let dataset_str := pyLower dataset_str₀
    if dataset_str ∈ ["tfds", "tensorflow", "tensorflow_datasets", "tensorflow datasets",
        "tensorflow_dataset", "tensorflow dataset"] then
      .ok .TENSORFLOW_DATASETS
    else if dataset_str ∈ ["torchvision"] then
      .ok .TORCHVISION
    else if dataset_str ∈ ["huggingface", "hugging_face", "hugging face"] then
      .ok .HUGGING_FACE
    else if dataset_str ∈ ["generic"] then
      .ok .GENERIC
    else
      .error (.valueError ("Unsupported dataset type: " ++ dataset_str ++ " (Select from: "
        ++ pyStrList (DatasetType.members.map DatasetType.name) ++ ")"))

/-- The `ModelType` enum. -/
inductive ModelType where
  | TF_HUB
  | TORCHVISION
  | PYTORCH_HUB
  | HUGGING_FACE
  | KERAS_APPLICATIONS
  | GENERIC
deriving DecidableEq

/-- `e.name` for a `ModelType` member. -/
def ModelType.name : ModelType → String
  | .TF_HUB => "TF_HUB"
  | .TORCHVISION => "TORCHVISION"
  | .PYTORCH_HUB => "PYTORCH_HUB"
  | .HUGGING_FACE => "HUGGING_FACE"
  | .KERAS_APPLICATIONS => "KERAS_APPLICATIONS"
  | .GENERIC => "GENERIC"

/-- `[e for e in ModelType]` in declaration order. -/
def ModelType.members : List ModelType :=
  [.TF_HUB, .TORCHVISION, .PYTORCH_HUB, .HUGGING_FACE, .KERAS_APPLICATIONS, .GENERIC]

/-- `ModelType.from_str(model_str)`: `None` maps to `GENERIC`. The source's
`model_str = model_str.lower()` statement sits inside the `None` branch
after its `return`, so it is unreachable and the match below is against the
input exactly as given. -/
def ModelType.from_str : Option String → Except PyError ModelType
  | none => .ok .GENERIC
  | some model_str =>
    if model_str ∈ ["tfhub", "tf_hub", "tf hub", "tensorflow_hub", "tensorflow hub"] then
      .ok .TF_HUB
    else if model_str ∈ ["torchvision"] then
      .ok .TORCHVISION
    else if model_str ∈ ["pytorch_hub", "pyt_hub", "torch_hub", "torch hub", "pytorch hub"] then
      .ok .PYTORCH_HUB
    else if model_str ∈ ["huggingface", "hugging_face", "hugging face"] then
      .ok .HUGGING_FACE
    else if model_str ∈ ["keras", "keras_applications", "keras applications"] then
      .ok .KERAS_APPLICATIONS
    else if model_str ∈ ["generic"] then
      .ok .GENERIC
    else
      .error (.valueError ("Unsupported model type: " ++ model_str ++ " (Select from: "
        ++ pyStrList (ModelType.members.map ModelType.name) ++ ")"))

/-- The alias strings accepted by `ModelType.from_str`, one sublist per
branch of the match. -/
def supportedModelHubAliases : List String :=
  ["tfhub", "tf_hub", "tf hub", "tensorflow_hub", "tensorflow hub"]
  ++ ["torchvision"]
  ++ ["pytorch_hub", "pyt_hub", "torch_hub", "torch hub", "pytorch hub"]
  ++ ["huggingface", "hugging_face", "hugging face"]
  ++ ["keras", "keras_applications", "keras applications"]
  ++ ["generic"]

/-- The alias strings accepted by `DatasetType.from_str` (after lowering),
one sublist per branch of the match. -/
def supportedDatasetAliases : List String :=
  ["tfds", "tensorflow", "tensorflow_datasets", "tensorflow datasets",
    "tensorflow_dataset", "tensorflow dataset"]
  ++ ["torchvision"]
  ++ ["huggingface", "hugging_face", "hugging face"]
  ++ ["generic"]

/-- A constructed `ModelDownloader` object: the model name and the resolved
hub type stored on it. -/
structure ModelDownloader where
  model_name : String
  type : ModelType
deriving DecidableEq

/-- Modelled from the spec: `ModelDownloader.__init__` itself is not under
`src/` (only `downloader/types.py` and its test are). The spec describes the
downloader as a thin factory over the supported model hubs and the test
`test_bad_hub` expects `ValueError` for an unsupported hub string, so
construction resolves the hub name with `ModelType.from_str` and stores the
result, propagating its `ValueError`. -/
def ModelDownloader.construct (model_name : String) (hub : Option String) :
    Except PyError ModelDownloader :=
  (ModelType.from_str hub).map (fun t => { model_name := model_name, type := t })

/-! ## `notebooks/video_classification/pytorch_video_classification/model_utils.py` -/

/-- A `torch.nn.Linear` layer: its shape and the shared `requires_grad`
flag of its weight and bias parameters. A freshly constructed layer is
trainable. -/
structure Linear where
  in_features : ℕ
  out_features : ℕ
  requires_grad : Bool
deriving DecidableEq

/-- `torch.nn.Linear(num_features, num_classes)`. -/
def torchNnLinear (num_features num_classes : ℕ) : Linear :=
  { in_features := num_features, out_features := num_classes, requires_grad := true }

/-- A torchvision video-classification model: the `requires_grad` flags of
its non-classifier parameters and its `fc` classifier layer (`fc` is the
classifier attribute of every entry of `torchvision_model_map`).
`model.parameters()` ranges over `params` together with the parameters of
`fc`. -/
structure VideoModel where
  params : List Bool
  fc : Linear
deriving DecidableEq

/-- The `for param in model.parameters(): param.requires_grad = False` loop. -/
def VideoModel.freeze (m : VideoModel) : VideoModel :=
  { params := m.params.map (fun _ => false),
    fc := { m.fc with requires_grad := false } }

/-- `getattr(model, name)` for the classifier attribute. -/
def VideoModel.getattrLinear (m : VideoModel) (name : String) : Option Linear :=
  if name = "fc" then some m.fc else none

/-- `setattr(model, name, layer)` for the classifier attribute. -/
def VideoModel.setattrLinear (m : VideoModel) (name : String) (layer : Linear) : VideoModel :=
  if name = "fc" then { m with fc := layer } else m

/-- `torchvision_model_map`: model name to classifier attribute name. Every
value in the source is the plain string `"fc"` (never a list), so the
`isinstance(classifier_layer, list)` branch of `get_retrainable_model` is
dead for this map and is not embedded. -/
def torchvision_model_map : List (String × String) :=
  [("r3d_18", "fc"), ("mc3_18", "fc"), ("r2plus1d_18", "fc")]

/-- `get_retrainable_model(model_name, num_classes, do_fine_tuning)`.
`hub` stands for the pretrained torchvision constructor
(`torchvision.models.video.<name>(pretrained=True)`); an unknown name
raises `KeyError` at the map subscript. -/
def get_retrainable_model (hub : String → VideoModel) (model_name : String)
    (num_classes : ℕ) (do_fine_tuning : Bool) : Except PyError VideoModel :=
  match (torchvision_model_map.lookup model_name) with
  | none => .error (.keyError model_name)
  | some classifier_layer =>
    let model := hub model_name
    let model := if !do_fine_tuning then model.freeze else model
    match model.getattrLinear classifier_layer with
    | none => .error (.typeError "classifier attribute not found")
    | some classifier =>
      let num_features := classifier.in_features
      .ok (model.setattrLinear classifier_layer (torchNnLinear num_features num_classes))

/-! ## `tlt/distributed/pytorch/run_train_pyt.py` -/

/-- The parsed command-line arguments of `run_train_pyt.py`. -/
structure ParsedArgs where
  master_addr : String
  master_port : String
  backend : String
  use_case : String
  epochs : ℤ
  batch_size : ℤ
  disable_ipex : Bool
deriving DecidableEq

/-- `argparse` parsing of the launcher's optional arguments: `backend`
defaults to `"ccl"`, `epochs` to `1`, `batch_size` to `128`, and
`disable_ipex` (a `store_true` flag) is the flag's presence. -/
def parse_args (master_addr master_port use_case : String) (backend : Option String)
    (epochs batch_size : Option ℤ) (disable_ipex : Bool) : ParsedArgs :=
  { master_addr := master_addr
    master_port := master_port
    backend := backend.getD "ccl"
    use_case := use_case
    epochs := epochs.getD 1
    batch_size := batch_size.getD 128
    disable_ipex := disable_ipex }

/-- The dict returned by `DistributedTorch.load_saved_objects`: the keys
read with `[]` are mandatory, the ones read with `.get` are optional. -/
structure LoadedObjects (O : Type) where
  dataset : O
  train_subset : Option O
  test_subset : Option O
  validation_subset : Option O
  model : O
  loss : O
  optimizer : O

/-- The `DistributedTrainingArguments` record built by the launcher. -/
structure DistributedTrainingArguments (O : Type) where
  dataset : O
  model : O
  criterion : O
  optimizer : O
  epochs : ℤ
  batch_size : ℤ
  disable_ipex : Bool

/-- The `dt.launch_distributed_job(...)` call made by the launcher,
recorded as the use case of the `DistributedTorch` object and the four
arguments passed. -/
structure LaunchCall (O : Type) where
  use_case : String
  training_args : DistributedTrainingArguments O
  master_addr : String
  master_port : String
  backend : String

/-- The `__main__` body of `run_train_pyt.py` after argument parsing and
object loading: unpack the loaded objects, build
`DistributedTrainingArguments`, and launch the distributed job. -/
def run_train_pyt_main (args : ParsedArgs) (loaded_objects : LoadedObjects O) : LaunchCall O :=
  let dataset := loaded_objects.dataset
  let train_subset := loaded_objects.train_subset.getD dataset
  let _test_subset := loaded_objects.test_subset.getD dataset
  let _validation_subset := loaded_objects.validation_subset.getD dataset
  let training_args : DistributedTrainingArguments O :=
    { dataset := train_subset
      model := loaded_objects.model
      criterion := loaded_objects.loss
      optimizer := loaded_objects.optimizer
      epochs := args.epochs
      batch_size := args.batch_size
      disable_ipex := args.disable_ipex }
  { use_case := args.use_case
    training_args := training_args
    master_addr := args.master_addr
    master_port := args.master_port
    backend := args.backend }

/-! ## Shared lemmas -/

/-- On float arguments whose sum is at most 1 and a defined dataset,
`shuffle_split` succeeds and assigns exactly the take/skip slices of the
stored dataset. -/
theorem TFDataset.shuffle_split_eq_ok (f : ℕ → Option ℤ → List α → List α)
    (s : TFDataset α) (d : List α) (tp vp sp : ℚ) (seed : Option ℤ)
    (hd : s.dataset = some d) (hsum : tp + vp + sp ≤ 1) :
    TFDataset.shuffle_split f s (.float tp) (.float vp) (.float sp) seed
      = .ok { s with
          train_subset := some (tfTake (pyInt (tp * d.length)) d),
          validation_subset := some (tfTake (pyInt (vp * d.length)) (tfSkip (pyInt (tp * d.length)) d)),
          test_subset := if sp ≠ 0 then some (tfSkip (pyInt (tp * d.length) + pyInt (vp * d.length)) d) else none,
          validation_type := some "shuffle_split" } := by
  have h2 : ¬((PyNum.float tp).toRat + (PyNum.float vp).toRat + (PyNum.float sp).toRat > 1) := by
    simp only [PyNum.toRat]
    exact not_lt.mpr hsum
  simp only [TFDataset.shuffle_split, PyNum.isFloat, Bool.and_self, Bool.not_true,
    Bool.false_eq_true, if_false, if_neg h2, hd, PyNum.toRat, PyNum.toBool, bne_iff_ne]
  rw [if_neg (not_lt.mpr hsum)]

/-- An unsupported hub string makes `ModelType.from_str` raise `ValueError`
with the member names listed. -/
theorem modelType_from_str_not_alias (h : String) (hh : h ∉ supportedModelHubAliases) :
    ModelType.from_str (some h)
      = .error (.valueError ("Unsupported model type: " ++ h ++ " (Select from: "
          ++ pyStrList (ModelType.members.map ModelType.name) ++ ")")) := by
  simp only [supportedModelHubAliases, List.mem_append, not_or] at hh
  obtain ⟨⟨⟨⟨⟨ha, hb⟩, hc⟩, hd⟩, he⟩, hf⟩ := hh
  rw [ModelType.from_str, if_neg ha, if_neg hb, if_neg hc, if_neg hd, if_neg he, if_neg hf]

/-- An input whose lowering is not an alias makes `DatasetType.from_str`
raise `ValueError` with the member names listed. -/
theorem datasetType_from_str_not_alias (s0 : String) (hh : pyLower s0 ∉ supportedDatasetAliases) :
    DatasetType.from_str (some s0)
      = .error (.valueError ("Unsupported dataset type: " ++ pyLower s0 ++ " (Select from: "
          ++ pyStrList (DatasetType.members.map DatasetType.name) ++ ")")) := by
  simp only [supportedDatasetAliases, List.mem_append, not_or] at hh
  obtain ⟨⟨⟨ha, hb⟩, hc⟩, hd⟩ := hh
  rw [DatasetType.from_str]
  rw [if_neg ha, if_neg hb, if_neg hc, if_neg hd]

/-- Every alias accepted by `ModelType.from_str` is entirely lowercase. -/
theorem modelAliases_all_lower :
    ∀ a ∈ supportedModelHubAliases, ∀ c ∈ a.data, c.isUpper = false := by decide

/-- Every value of `torchvision_model_map` is the attribute name `"fc"`. -/
theorem torchvision_lookup_fc (n : String) (v : String)
    (h : torchvision_model_map.lookup n = some v) : v = "fc" := by
  simp only [torchvision_model_map, List.lookup] at h
  split at h
  · exact (Option.some.injEq _ _ ▸ h).symm
  · split at h
    · exact (Option.some.injEq _ _ ▸ h).symm
    · split at h
      · exact (Option.some.injEq _ _ ▸ h).symm
      · exact absurd h (by simp)

/-! ## Claims -/

/-- Claim C1 (refuted, code bug): `shuffle_split` is claimed to slice the
shuffled dataset, but the source drops the value returned by
`self._dataset.shuffle(length, seed=seed)`, so for every shuffle behavior
`f` and every seed the computed subsets are slices of the dataset in its
original order: on `[0,1,2,3]` with `train_pct = val_pct = 0.5` the train
subset is always the original prefix `[0,1]`, never the shuffled prefix
(`[3,2]` under a reversing shuffle). -/
theorem claim_C1_shuffle_result_discarded :
    (∀ (f : ℕ → Option ℤ → List ℕ → List ℕ) (seed : Option ℤ),
      TFDataset.shuffle_split f ⟨some [0,1,2,3], none, none, none, none⟩
          (.float (1/2)) (.float (1/2)) (.float 0) seed
        = .ok ⟨some [0,1,2,3], some [0,1], some [2,3], none, some "shuffle_split"⟩) ∧
    tfTake (pyInt ((1/2 : ℚ) * 4)) (List.reverse [0,1,2,3]) = [3,2] ∧
    ([3,2] : List ℕ) ≠ [0,1] := by
  refine ⟨?_, ?_, by decide⟩
  · intro f seed
    simp only [TFDataset.shuffle_split, PyNum.isFloat, PyNum.toRat, PyNum.toBool, pyInt,
      tfTake, tfSkip]
    norm_num
    decide
  · simp only [pyInt, tfTake]
    norm_num
    decide

/-- Claim C2: on a defined dataset of length `n` and float percentages
summing to at most 1, `shuffle_split` sets `train_subset` to
`take(int(train_pct*n))`, `validation_subset` to
`skip(train_size).take(int(val_pct*n))`, `test_subset` to
`skip(train_size+val_size)` when `test_pct` is nonzero and `None` when it
is zero (whatever it was before), and `_validation_type` to
`"shuffle_split"`. -/
theorem claim_C2_subset_assignments (f : ℕ → Option ℤ → List α → List α)
    (s : TFDataset α) (d : List α) (tp vp sp : ℚ) (seed : Option ℤ)
    (hd : s.dataset = some d) (hsum : tp + vp + sp ≤ 1) :
    TFDataset.shuffle_split f s (.float tp) (.float vp) (.float sp) seed
      = .ok { s with
          train_subset := some (tfTake (pyInt (tp * d.length)) d),
          validation_subset := some (tfTake (pyInt (vp * d.length)) (tfSkip (pyInt (tp * d.length)) d)),
          test_subset := if sp ≠ 0 then some (tfSkip (pyInt (tp * d.length) + pyInt (vp * d.length)) d) else none,
          validation_type := some "shuffle_split" } :=
  TFDataset.shuffle_split_eq_ok f s d tp vp sp seed hd hsum

/-- Witness for C2 at two concrete inputs: a three-element dataset split
1/3:1/3:1/3 (nonzero `test_pct`), and the same dataset split 3/4:1/4:0,
where the pre-existing test subset is cleared to `None`. -/
theorem claim_C2_witness :
    (TFDataset.shuffle_split (fun _ _ l => l)
        (⟨some [0,1,2], none, none, some [9], some "defined_split"⟩ : TFDataset ℕ)
        (.float (1/3)) (.float (1/3)) (.float (1/3)) none
      = .ok ⟨some [0,1,2], some [0], some [1], some [2], some "shuffle_split"⟩) ∧
    (TFDataset.shuffle_split (fun _ _ l => l)
        (⟨some [0,1,2], none, none, some [9], some "defined_split"⟩ : TFDataset ℕ)
        (.float (3/4)) (.float (1/4)) (.float 0) none
      = .ok ⟨some [0,1,2], some [0,1], some [], none, some "shuffle_split"⟩) := by
  constructor
  · rw [claim_C2_subset_assignments (fun _ _ l => l) _ [0,1,2] (1/3) (1/3) (1/3) none rfl
      (by norm_num)]
    norm_num [pyInt, tfTake, tfSkip]
    decide
  · rw [claim_C2_subset_assignments (fun _ _ l => l) _ [0,1,2] (3/4) (1/4) 0 none rfl
      (by norm_num)]
    norm_num [pyInt, tfTake, tfSkip]
    decide

/-- Claim C3: with valid nonnegative float percentages, `test_pct > 0` and
sum at most 1, the three subsets produced by `shuffle_split` partition the
dataset it sliced: their in-order concatenation is that dataset, with
lengths `int(train_pct*n)`, `int(val_pct*n)` and the remainder. -/
theorem claim_C3_subsets_partition (f : ℕ → Option ℤ → List α → List α)
    (s : TFDataset α) (d : List α) (tp vp sp : ℚ) (seed : Option ℤ)
    (hd : s.dataset = some d) (htp : 0 ≤ tp) (hvp : 0 ≤ vp) (hsp : 0 < sp)
    (hsum : tp + vp + sp ≤ 1) :
    ∃ tr va te,
      TFDataset.shuffle_split f s (.float tp) (.float vp) (.float sp) seed
        = .ok { s with
            train_subset := some tr
            validation_subset := some va
            test_subset := some te
            validation_type := some "shuffle_split" } ∧
      tr ++ va ++ te = d ∧
      tr.length = (pyInt (tp * d.length)).toNat ∧
      va.length = (pyInt (vp * d.length)).toNat ∧
      te.length = d.length - tr.length - va.length := by
  have hn : (0:ℚ) ≤ (d.length : ℚ) := Nat.cast_nonneg _
  have htpn : 0 ≤ tp * (d.length : ℚ) := mul_nonneg htp hn
  have hvpn : 0 ≤ vp * (d.length : ℚ) := mul_nonneg hvp hn
  have etp : pyInt (tp * (d.length : ℚ)) = ⌊tp * (d.length : ℚ)⌋ := if_pos htpn
  have evp : pyInt (vp * (d.length : ℚ)) = ⌊vp * (d.length : ℚ)⌋ := if_pos hvpn
  have hts0 : 0 ≤ ⌊tp * (d.length : ℚ)⌋ := Int.floor_nonneg.mpr htpn
  have hvs0 : 0 ≤ ⌊vp * (d.length : ℚ)⌋ := Int.floor_nonneg.mpr hvpn
  set a : ℕ := (⌊tp * (d.length : ℚ)⌋).toNat with ha
  set b : ℕ := (⌊vp * (d.length : ℚ)⌋).toNat with hb
  have hab : a + b ≤ d.length := by
    have h1 : ((⌊tp * (d.length : ℚ)⌋ : ℚ)) + ((⌊vp * (d.length : ℚ)⌋ : ℚ))
        ≤ tp * (d.length : ℚ) + vp * (d.length : ℚ) :=
      add_le_add (Int.floor_le _) (Int.floor_le _)
    have h2 : tp * (d.length : ℚ) + vp * (d.length : ℚ) ≤ (d.length : ℚ) := by nlinarith
    have h3 : ⌊tp * (d.length : ℚ)⌋ + ⌊vp * (d.length : ℚ)⌋ ≤ (d.length : ℤ) := by
      exact_mod_cast h1.trans h2
    have h4 : (⌊tp * (d.length : ℚ)⌋ + ⌊vp * (d.length : ℚ)⌋).toNat ≤ d.length :=
      Int.toNat_le.mpr h3
    rwa [Int.toNat_add hts0 hvs0] at h4
  have ha_le : a ≤ d.length := le_trans (Nat.le_add_right a b) hab
  refine ⟨d.take a, (d.drop a).take b, d.drop (a + b), ?_, ?_, ?_, ?_, ?_⟩
  · rw [TFDataset.shuffle_split_eq_ok f s d tp vp sp seed hd hsum]
    have hfc : tfTake (pyInt (tp * (d.length : ℚ))) d = d.take a := by
      rw [etp, tfTake, if_neg (not_lt.mpr hts0)]
    have hvc : tfTake (pyInt (vp * (d.length : ℚ))) (tfSkip (pyInt (tp * (d.length : ℚ))) d)
        = (d.drop a).take b := by
      rw [etp, evp, tfTake, tfSkip, if_neg (not_lt.mpr hts0), if_neg (not_lt.mpr hvs0)]
    have htc : tfSkip (pyInt (tp * (d.length : ℚ)) + pyInt (vp * (d.length : ℚ))) d
        = d.drop (a + b) := by
      rw [etp, evp, tfSkip, if_neg (not_lt.mpr (add_nonneg hts0 hvs0)),
        Int.toNat_add hts0 hvs0]
    rw [hfc, hvc, htc, if_pos hsp.ne.symm]
  · rw [List.append_assoc]
    have hdd : d.drop (a + b) = (d.drop a).drop b := by
      rw [List.drop_drop, Nat.add_comm]
    rw [hdd, List.take_append_drop, List.take_append_drop]
  · rw [List.length_take, etp, Nat.min_eq_left ha_le]
  · rw [List.length_take, List.length_drop, evp, Nat.min_eq_left (by omega)]
  · rw [List.length_drop, List.length_take, List.length_take, List.length_drop,
      Nat.min_eq_left ha_le, Nat.min_eq_left (by omega)]
    omega

/-- Witness for C3: the four-element dataset `[0,1,2,3]` split
1/4:1/4:1/2 partitions into subsets of sizes 1, 1 and 2. -/
theorem claim_C3_witness :
    ∃ tr va te,
      TFDataset.shuffle_split (fun _ _ l => l.reverse)
          (⟨some [0,1,2,3], none, none, none, none⟩ : TFDataset ℕ)
          (.float (1/4)) (.float (1/4)) (.float (1/2)) none
        = .ok { (⟨some [0,1,2,3], none, none, none, none⟩ : TFDataset ℕ) with
            train_subset := some tr
            validation_subset := some va
            test_subset := some te
            validation_type := some "shuffle_split" } ∧
      tr ++ va ++ te = [0,1,2,3] ∧
      tr.length = (pyInt ((1/4 : ℚ) * (([0,1,2,3] : List ℕ).length : ℚ))).toNat ∧
      va.length = (pyInt ((1/4 : ℚ) * (([0,1,2,3] : List ℕ).length : ℚ))).toNat ∧
      te.length = ([0,1,2,3] : List ℕ).length - tr.length - va.length :=
  claim_C3_subsets_partition (fun _ _ l => l.reverse) _ [0,1,2,3] (1/4) (1/4) (1/2) none
    rfl (by norm_num) (by norm_num) (by norm_num) (by norm_num)

/-- Claim C4: the distributed-training launcher builds
`DistributedTrainingArguments` from the loaded train subset (falling back
to the whole dataset when none was saved), model, loss and optimizer, with
`epochs` defaulting to 1 and `batch_size` to 128, and launches the job with
the given master address, master port and backend, the backend defaulting
to `"ccl"`. -/
theorem claim_C4_launcher (O : Type) (ma mp uc : String) (be : Option String)
    (ep bs : Option ℤ) (di : Bool) (objs : LoadedObjects O) :
    run_train_pyt_main (parse_args ma mp uc be ep bs di) objs =
      { use_case := uc
        training_args :=
          { dataset := objs.train_subset.getD objs.dataset
            model := objs.model
            criterion := objs.loss
            optimizer := objs.optimizer
            epochs := ep.getD 1
            batch_size := bs.getD 128
            disable_ipex := di }
        master_addr := ma
        master_port := mp
        backend := be.getD "ccl" } := rfl

/-- Claim C5 (hub resolution is spec-modelled): constructing a
`ModelDownloader` with an unsupported hub name raises `ValueError`, and
every supported alias resolves to the corresponding `ModelType` without
error. -/
theorem claim_C5_model_downloader :
    (∀ (m h : String), h ∉ supportedModelHubAliases →
      ∃ msg, ModelDownloader.construct m (some h) = .error (.valueError msg)) ∧
    (∀ m : String,
      ModelDownloader.construct m (some "tfhub") = .ok ⟨m, .TF_HUB⟩ ∧
      ModelDownloader.construct m (some "tf_hub") = .ok ⟨m, .TF_HUB⟩ ∧
      ModelDownloader.construct m (some "tf hub") = .ok ⟨m, .TF_HUB⟩ ∧
      ModelDownloader.construct m (some "tensorflow_hub") = .ok ⟨m, .TF_HUB⟩ ∧
      ModelDownloader.construct m (some "tensorflow hub") = .ok ⟨m, .TF_HUB⟩ ∧
      ModelDownloader.construct m (some "torchvision") = .ok ⟨m, .TORCHVISION⟩ ∧
      ModelDownloader.construct m (some "pytorch_hub") = .ok ⟨m, .PYTORCH_HUB⟩ ∧
      ModelDownloader.construct m (some "pyt_hub") = .ok ⟨m, .PYTORCH_HUB⟩ ∧
      ModelDownloader.construct m (some "torch_hub") = .ok ⟨m, .PYTORCH_HUB⟩ ∧
      ModelDownloader.construct m (some "torch hub") = .ok ⟨m, .PYTORCH_HUB⟩ ∧
      ModelDownloader.construct m (some "pytorch hub") = .ok ⟨m, .PYTORCH_HUB⟩ ∧
      ModelDownloader.construct m (some "huggingface") = .ok ⟨m, .HUGGING_FACE⟩ ∧
      ModelDownloader.construct m (some "hugging_face") = .ok ⟨m, .HUGGING_FACE⟩ ∧
      ModelDownloader.construct m (some "hugging face") = .ok ⟨m, .HUGGING_FACE⟩ ∧
      ModelDownloader.construct m (some "keras") = .ok ⟨m, .KERAS_APPLICATIONS⟩ ∧
      ModelDownloader.construct m (some "keras_applications") = .ok ⟨m, .KERAS_APPLICATIONS⟩ ∧
      ModelDownloader.construct m (some "keras applications") = .ok ⟨m, .KERAS_APPLICATIONS⟩ ∧
      ModelDownloader.construct m (some "generic") = .ok ⟨m, .GENERIC⟩) := by
  constructor
  · intro m h hh
    refine ⟨"Unsupported model type: " ++ h ++ " (Select from: "
      ++ pyStrList (ModelType.members.map ModelType.name) ++ ")", ?_⟩
    rw [ModelDownloader.construct, modelType_from_str_not_alias h hh]
    rfl
  · intro m
    exact ⟨rfl, rfl, rfl, rfl, rfl, rfl, rfl, rfl, rfl, rfl, rfl, rfl, rfl, rfl, rfl,
      rfl, rfl, rfl⟩

/-- Witness for C5: the test's bad hub `"foo"` raises `ValueError`, and the
alias `"tf_hub"` resolves to `TF_HUB`. -/
theorem claim_C5_witness :
    (∃ msg, ModelDownloader.construct "model" (some "foo") = .error (.valueError msg)) ∧
    ModelDownloader.construct "model" (some "tf_hub") = .ok ⟨"model", .TF_HUB⟩ :=
  ⟨claim_C5_model_downloader.1 "model" "foo" (by decide),
    (claim_C5_model_downloader.2 "model").2.1⟩

/-- Claim C6: `DatasetType.from_str` maps `None` to `GENERIC`; it is
case-insensitive (it depends only on the lowered input); every supported
alias maps to the corresponding `DatasetType`; and any other string raises
`ValueError` listing the options. -/
theorem claim_C6_dataset_type_from_str :
    (DatasetType.from_str none = .ok .GENERIC) ∧
    (∀ s1 s2 : String, pyLower s1 = pyLower s2 →
      DatasetType.from_str (some s1) = DatasetType.from_str (some s2)) ∧
    (DatasetType.from_str (some "tfds") = .ok .TENSORFLOW_DATASETS ∧
     DatasetType.from_str (some "tensorflow") = .ok .TENSORFLOW_DATASETS ∧
     DatasetType.from_str (some "tensorflow_datasets") = .ok .TENSORFLOW_DATASETS ∧
     DatasetType.from_str (some "tensorflow datasets") = .ok .TENSORFLOW_DATASETS ∧
     DatasetType.from_str (some "tensorflow_dataset") = .ok .TENSORFLOW_DATASETS ∧
     DatasetType.from_str (some "tensorflow dataset") = .ok .TENSORFLOW_DATASETS ∧
     DatasetType.from_str (some "torchvision") = .ok .TORCHVISION ∧
     DatasetType.from_str (some "huggingface") = .ok .HUGGING_FACE ∧
     DatasetType.from_str (some "hugging_face") = .ok .HUGGING_FACE ∧
     DatasetType.from_str (some "hugging face") = .ok .HUGGING_FACE ∧
     DatasetType.from_str (some "generic") = .ok .GENERIC ∧
     DatasetType.from_str (some "TFDS") = .ok .TENSORFLOW_DATASETS) ∧
    (∀ s : String, pyLower s ∉ supportedDatasetAliases →
      DatasetType.from_str (some s)
        = .error (.valueError ("Unsupported dataset type: " ++ pyLower s ++ " (Select from: "
            ++ pyStrList (DatasetType.members.map DatasetType.name) ++ ")"))) := by
  refine ⟨rfl, ?_, ?_, ?_⟩
  · intro s1 s2 h
    simp only [DatasetType.from_str]
    rw [h]
  · exact ⟨rfl, rfl, rfl, rfl, rfl, rfl, rfl, rfl, rfl, rfl, rfl, rfl⟩
  · intro s hs
    exact datasetType_from_str_not_alias s hs

/-- Witness for C6: `"TENSORFLOW DATASET"` and `"tensorflow dataset"` agree
under lowering, and the test-style bad name `"foo"` raises `ValueError`. -/
theorem claim_C6_witness :
    (DatasetType.from_str (some "TENSORFLOW DATASET")
      = DatasetType.from_str (some "tensorflow dataset")) ∧
    (DatasetType.from_str (some "foo")
      = .error (.valueError ("Unsupported dataset type: " ++ pyLower "foo" ++ " (Select from: "
          ++ pyStrList (DatasetType.members.map DatasetType.name) ++ ")"))) :=
  ⟨claim_C6_dataset_type_from_str.2.1 "TENSORFLOW DATASET" "tensorflow dataset" rfl,
    claim_C6_dataset_type_from_str.2.2.2 "foo" (by decide)⟩

/-- Claim C7: for every model name in `torchvision_model_map` and every
`num_classes`, `get_retrainable_model` returns the pretrained model with
its classifier replaced by a fresh trainable `Linear` layer of output
dimension `num_classes` and input dimension the original classifier's
`in_features`; with `do_fine_tuning = False` every pretrained parameter is
frozen before the replacement, with `do_fine_tuning = True` none is. -/
theorem claim_C7_retrainable_model (hub : String → VideoModel) (model_name : String)
    (num_classes : ℕ) (do_fine_tuning : Bool)
    (hmem : (torchvision_model_map.lookup model_name).isSome) :
    ∃ m, get_retrainable_model hub model_name num_classes do_fine_tuning = .ok m ∧
      m.fc.out_features = num_classes ∧
      m.fc.in_features = (hub model_name).fc.in_features ∧
      m.fc.requires_grad = true ∧
      (do_fine_tuning = false → m.params = (hub model_name).params.map (fun _ => false)) ∧
      (do_fine_tuning = true → m.params = (hub model_name).params) := by
  obtain ⟨v, hv⟩ := Option.isSome_iff_exists.mp hmem
  have hvfc := torchvision_lookup_fc model_name v hv
  subst hvfc
  rw [get_retrainable_model, hv]
  cases do_fine_tuning with
  | false =>
    refine ⟨_, rfl, ?_⟩
    simp [VideoModel.freeze, VideoModel.getattrLinear, VideoModel.setattrLinear, torchNnLinear]
  | true =>
    refine ⟨_, rfl, ?_⟩
    simp [VideoModel.getattrLinear, VideoModel.setattrLinear, torchNnLinear]

/-- Witness for C7: `r3d_18` pretrained with a 512-feature classifier,
retargeted to 7 classes without fine-tuning. -/
theorem claim_C7_witness :
    ∃ m, get_retrainable_model (fun _ => ⟨[true, true], ⟨512, 400, true⟩⟩) "r3d_18" 7 false
        = .ok m ∧
      m.fc.out_features = 7 ∧
      m.fc.in_features = ((fun (_ : String) => (⟨[true, true], ⟨512, 400, true⟩⟩ : VideoModel)) "r3d_18").fc.in_features ∧
      m.fc.requires_grad = true ∧
      (false = false → m.params = ((fun (_ : String) => (⟨[true, true], ⟨512, 400, true⟩⟩ : VideoModel)) "r3d_18").params.map (fun _ => false)) ∧
      (false = true → m.params = ((fun (_ : String) => (⟨[true, true], ⟨512, 400, true⟩⟩ : VideoModel)) "r3d_18").params) :=
  claim_C7_retrainable_model (fun _ => ⟨[true, true], ⟨512, 400, true⟩⟩) "r3d_18" 7 false
    (by decide)

/-- Claim C8: `shuffle_split` raises `ValueError` exactly when the three
percentage arguments are not all floats or their sum exceeds 1, and
whenever it raises (including the `TypeError` on an undefined dataset) the
object's state is unchanged. -/
theorem claim_C8_validation (f : ℕ → Option ℤ → List α → List α)
    (s : TFDataset α) (tp vp sp : PyNum) (seed : Option ℤ) :
    (∀ e s', TFDataset.shuffle_split f s tp vp sp seed = .error (e, s') → s' = s) ∧
    ((∃ msg s', TFDataset.shuffle_split f s tp vp sp seed = .error (.valueError msg, s'))
      ↔ (¬(tp.isFloat ∧ vp.isFloat ∧ sp.isFloat)
          ∨ tp.toRat + vp.toRat + sp.toRat > 1)) := by
  unfold TFDataset.shuffle_split
  by_cases h1 : (tp.isFloat && vp.isFloat && sp.isFloat) = true
  · have h1' : tp.isFloat ∧ vp.isFloat ∧ sp.isFloat := by
      simpa [and_assoc] using h1
    rw [if_neg (by simp [h1])]
    by_cases h2 : tp.toRat + vp.toRat + sp.toRat > 1
    · rw [if_pos h2]
      refine ⟨?_, ?_⟩
      · intro e s' he
        simp only [Except.error.injEq, Prod.mk.injEq] at he
        exact he.2.symm
      · exact ⟨fun _ => Or.inr h2, fun _ => ⟨_, s, rfl⟩⟩
    · rw [if_neg h2]
      cases hds : s.dataset with
      | none =>
        refine ⟨?_, ?_⟩
        · intro e s' he
          simp only [Except.error.injEq, Prod.mk.injEq] at he
          exact he.2.symm
        · refine ⟨?_, ?_⟩
          · rintro ⟨msg, s', he⟩
            simp only [Except.error.injEq, Prod.mk.injEq] at he
            exact absurd he.1 (by simp)
          · rintro (hf | hgt)
            · exact absurd h1' hf
            · exact absurd hgt h2
      | some d =>
        refine ⟨?_, ?_⟩
        · intro e s' he
          exact absurd he (by simp)
        · refine ⟨?_, ?_⟩
          · rintro ⟨msg, s', he⟩
            exact absurd he (by simp)
          · rintro (hf | hgt)
            · exact absurd h1' hf
            · exact absurd hgt h2
  · have hx : (tp.isFloat && vp.isFloat && sp.isFloat) = false := by
      cases hxx : (tp.isFloat && vp.isFloat && sp.isFloat) with
      | true => exact absurd hxx h1
      | false => rfl
    rw [if_pos (by simp [hx])]
    refine ⟨?_, ?_⟩
    · intro e s' he
      simp only [Except.error.injEq, Prod.mk.injEq] at he
      exact he.2.symm
    · refine ⟨fun _ => Or.inl ?_, fun _ => ⟨"Percentage arguments must be floats.", s, rfl⟩⟩
      intro hc
      exact h1 (by simp [hc.1, hc.2.1, hc.2.2])

/-- Witness for C8: an integer `train_pct` raises `ValueError`. -/
theorem claim_C8_witness :
    ∃ msg s', TFDataset.shuffle_split (fun _ _ l => l)
        (⟨some [0,1], none, none, none, none⟩ : TFDataset ℕ)
        (.int 1) (.float (1/4)) (.float 0) none
      = .error (.valueError msg, s') :=
  (claim_C8_validation (fun _ _ l => l) ⟨some [0,1], none, none, none, none⟩
    (.int 1) (.float (1/4)) (.float 0) none).2.mpr (Or.inl (by decide))

/-- Claim C9: `ModelType.from_str` maps `None` to `GENERIC`, but matches a
non-`None` string without lowercasing (the normalization statement is
unreachable): a string yields a `ModelType` exactly when it is one of the
lowercase aliases, any string containing an uppercase letter (such as
`"TF_Hub"`) raises `ValueError`, and, unlike `DatasetType.from_str`, a
capitalized alias is rejected. -/
theorem claim_C9_no_lowercasing :
    (ModelType.from_str none = .ok .GENERIC) ∧
    (∀ s : String, (∃ t, ModelType.from_str (some s) = .ok t) ↔ s ∈ supportedModelHubAliases) ∧
    (∃ msg, ModelType.from_str (some "TF_Hub") = .error (.valueError msg)) ∧
    (∀ s : String, (∃ c ∈ s.data, c.isUpper) →
      ∃ msg, ModelType.from_str (some s) = .error (.valueError msg)) ∧
    (DatasetType.from_str (some "Torchvision") = .ok .TORCHVISION ∧
      ∃ msg, ModelType.from_str (some "Torchvision") = .error (.valueError msg)) := by
  refine ⟨rfl, ?_, ?_, ?_, rfl, ?_⟩
  · intro s
    constructor
    · intro ⟨t, ht⟩
      by_contra hm
      rw [modelType_from_str_not_alias s hm] at ht
      exact absurd ht (by simp)
    · intro hs
      simp only [supportedModelHubAliases, List.mem_append, List.mem_cons,
        List.mem_singleton, List.not_mem_nil, or_false] at hs
      rcases hs with ((((((rfl|rfl|rfl|rfl|rfl)|rfl)|(rfl|rfl|rfl|rfl|rfl))|(rfl|rfl|rfl))|(rfl|rfl|rfl))|rfl)
      all_goals exact ⟨_, rfl⟩
  · exact ⟨_, modelType_from_str_not_alias "TF_Hub" (by decide)⟩
  · intro s hc
    obtain ⟨c, hcm, hcu⟩ := hc
    have hm : s ∉ supportedModelHubAliases := by
      intro hs
      have hlow := modelAliases_all_lower s hs c hcm
      rw [hlow] at hcu
      exact absurd hcu (by simp)
    exact ⟨_, modelType_from_str_not_alias s hm⟩
  · exact ⟨_, modelType_from_str_not_alias "Torchvision" (by decide)⟩

/-- Witness for C9: `"KERAS"` contains uppercase letters, so it raises
`ValueError` even though `"keras"` is an alias. -/
theorem claim_C9_witness :
    ∃ msg, ModelType.from_str (some "KERAS") = .error (.valueError msg) :=
  claim_C9_no_lowercasing.2.2.2.1 "KERAS" ⟨'K', by decide, by decide⟩

/-- Claim C10: `get_batch` returns the first batch of the whole dataset for
`subset = "all"` when the dataset is defined, the first batch of the named
subset for `"train"`, `"validation"` or `"test"` when that subset is
defined, and raises `ValueError` in every other case (undefined dataset or
subset, or an unrecognized subset string); it never reads an undefined
dataset or subset. -/
theorem claim_C10_get_batch (s : TFDataset α) (subset : String) :
    (∀ b r, subset = "all" → s.dataset = some (b :: r) →
      s.get_batch subset = .ok b) ∧
    (∀ b r, subset = "train" → s.train_subset = some (b :: r) →
      s.get_batch subset = .ok b) ∧
    (∀ b r, subset = "validation" → s.validation_subset = some (b :: r) →
      s.get_batch subset = .ok b) ∧
    (∀ b r, subset = "test" → s.test_subset = some (b :: r) →
      s.get_batch subset = .ok b) ∧
    (¬(subset = "all" ∧ s.dataset.isSome) →
     ¬(subset = "train" ∧ s.train_subset.isSome) →
     ¬(subset = "validation" ∧ s.validation_subset.isSome) →
     ¬(subset = "test" ∧ s.test_subset.isSome) →
      s.get_batch subset
        = .error (.valueError "Unable to return a batch, because the dataset or subset hasn\x27t been defined.")) := by
  refine ⟨?_, ?_, ?_, ?_, ?_⟩
  · rintro b r rfl hds
    rw [TFDataset.get_batch, if_pos ⟨rfl, by simp [hds]⟩, hds]
    rfl
  · rintro b r rfl hds
    rw [TFDataset.get_batch, if_neg (by simp), if_pos ⟨rfl, by simp [hds]⟩, hds]
    rfl
  · rintro b r rfl hds
    rw [TFDataset.get_batch, if_neg (by simp), if_neg (by simp),
      if_pos ⟨rfl, by simp [hds]⟩, hds]
    rfl
  · rintro b r rfl hds
    rw [TFDataset.get_batch, if_neg (by simp), if_neg (by simp), if_neg (by simp),
      if_pos ⟨rfl, by simp [hds]⟩, hds]
    rfl
  · intro h1 h2 h3 h4
    rw [TFDataset.get_batch, if_neg h1, if_neg h2, if_neg h3, if_neg h4]

/-- Witness for C10: with only the dataset and train subset defined,
`"all"` and `"train"` return first batches and `"validation"` raises
`ValueError`. -/
theorem claim_C10_witness :
    (TFDataset.get_batch (⟨some [10], some [20], none, none, none⟩ : TFDataset ℕ) "all"
      = .ok 10) ∧
    (TFDataset.get_batch (⟨some [10], some [20], none, none, none⟩ : TFDataset ℕ) "train"
      = .ok 20) ∧
    (TFDataset.get_batch (⟨some [10], some [20], none, none, none⟩ : TFDataset ℕ) "validation"
      = .error (.valueError "Unable to return a batch, because the dataset or subset hasn\x27t been defined.")) :=
  ⟨(claim_C10_get_batch ⟨some [10], some [20], none, none, none⟩ "all").1 10 [] rfl rfl,
    (claim_C10_get_batch ⟨some [10], some [20], none, none, none⟩ "train").2.1 20 [] rfl rfl,
    (claim_C10_get_batch ⟨some [10], some [20], none, none, none⟩ "validation").2.2.2.2
      (by decide) (by decide) (by decide) (by decide)⟩
